import Mathlib

/-!
# SerenSync — verification of the classification/throttling/forwarding pipeline

A shallow embedding of `src/index.js` (the SignalK "Seren Sync" plugin).
JavaScript values are modelled by the inductive `JSValue` (numbers as
rationals, with `nan` kept separate); the per-path throttle map is an
association list; socket state is a record of the `destroyed`/`writable`
flags the code inspects; and the connection lifecycle (close events,
reconnect timers, stop) is a small transition system.  `Date.now()` and
the result of `new Date(string).getTime()` are external inputs, so they
are passed as explicit parameters (`now : ℚ`, and a date-parsing
function `String → Option ℤ` where `none` stands for `NaN`).
-/

/-- A JavaScript runtime value, as far as the plugin inspects values:
finite numbers (JS numbers are modelled as rationals, with `NaN` as the
separate constructor `nan`), strings, booleans, `null`, `undefined`, and
plain objects as insertion-ordered field lists.  Arrays and functions do
not occur in the plugin's data and are not modelled. -/
inductive JSValue where
  | num (q : ℚ)
  | nan
  | str (s : String)
  | bool (b : Bool)
  | null
  | undefined
  | obj (fields : List (String × JSValue))

/-- JavaScript truthiness test: `0`, `NaN`, `""`, `false`, `null` and
`undefined` are falsy; every other value (including every object) is
truthy.  `falsy v` models `!v` on the modelled values. -/
def falsy : JSValue → Bool
  | .num q => q == 0
  | .nan => true
  | .str s => s == ""
  | .bool b => !b
  | .null => true
  | .undefined => true
  | .obj _ => false

/-- `v === undefined`. -/
def isUndefined : JSValue → Bool
  | .undefined => true
  | _ => false

/-- `typeof v === 'object'` (true for plain objects and for `null`). -/
def isObjectType : JSValue → Bool
  | .obj _ => true
  | .null => true
  | _ => false

/-- Property lookup `v[k]`; a missing key (or a non-object receiver)
yields `undefined`, as in JavaScript. -/
def getField (v : JSValue) (k : String) : JSValue :=
  match v with
  | .obj fields =>
      match fields.find? (fun e => e.1 == k) with
      | some e => e.2
      | none => .undefined
  | _ => .undefined

/-- `Number(string)` on the strings the plugin can meet: a blank string
converts to `0`; a (possibly signed) decimal numeral converts to its
value; anything else is `NaN` (`none`).  Hexadecimal, exponent and
`Infinity` forms are outside the modelled range. -/
def jsStringToNumber (s : String) : Option ℚ :=
  let t := s.trim.toList
  if t.isEmpty then some 0
  else
    let (sign, digitsPart) :=
      match t with
      | '-' :: rest => ((-1 : ℚ), rest)
      | '+' :: rest => ((1 : ℚ), rest)
      | _ => ((1 : ℚ), t)
    let intPart := digitsPart.takeWhile Char.isDigit
    let rest := digitsPart.dropWhile Char.isDigit
    let fracPart :=
      match rest with
      | '.' :: f => if f.all Char.isDigit then some f else none
      | [] => some []
      | _ => none
    match fracPart with
    | none => none
    | some f =>
        if intPart.isEmpty && f.isEmpty then none
        else
          let iv : ℚ := (intPart.foldl (fun a c => a * 10 + (c.toNat - 48)) 0 : ℕ)
          let fv : ℚ := (f.foldl (fun a c => a * 10 + (c.toNat - 48)) 0 : ℕ)
          some (sign * (iv + fv / (10 : ℚ) ^ f.length))

/-- `Number(v)`: numeric coercion, with `none` standing for `NaN`.
`Number(null) = 0`, `Number(undefined) = NaN`, booleans convert to `0`/`1`,
strings via `jsStringToNumber`, and a plain object converts via its
`"[object Object]"` string form, i.e. to `NaN`. -/
def toNumber : JSValue → Option ℚ
  | .num q => some q
  | .nan => none
  | .str s => jsStringToNumber s
  | .bool b => some (if b then 1 else 0)
  | .null => some 0
  | .undefined => none
  | .obj _ => none

/-! ## The classification patterns (`CATEGORY_PATTERNS`)

Each JavaScript regular expression in `CATEGORY_PATTERNS` is one of a
few shapes; each shape is modelled exactly (including the fact that `.`
does not match a newline and that `^`/`$` anchor at the ends of the
whole string). -/

/-- `(.*)` matches exactly the newline-free strings. -/
def noLF (s : List Char) : Bool := s.all (fun c => c != '\n')

/-- `/^(.*)needle(.*)$/ .test s`: some split `s = a ++ needle ++ b` with
`a`, `b` newline-free. -/
def reContains (needle : List Char) (s : List Char) : Bool :=
  (List.range (s.length + 1)).any fun i =>
    noLF (s.take i) && needle.isPrefixOf (s.drop i) && noLF ((s.drop i).drop needle.length)

/-- `/^(.*)alt$/` where `alt` is one of finitely many literal suffixes
(e.g. `(m|M)ode`): `s` ends with one of the suffixes and the part
matched by `(.*)` is newline-free. -/
def reEndsAlt (sufs : List (List Char)) (s : List Char) : Bool :=
  sufs.any fun suf => suf.isSuffixOf s && noLF (s.take (s.length - suf.length))

/-- `/^lit$/`: exact literal match. -/
def reExact (lit : List Char) (s : List Char) : Bool := s == lit

/-- `/^lit(.*)$/`: literal prefix, newline-free remainder. -/
def reStartsWith (lit : List Char) (s : List Char) : Bool :=
  lit.isPrefixOf s && noLF (s.drop lit.length)

/-- `/^pre([0-9]+)suf$/`: literal prefix, a nonempty run of digits, and
a literal suffix making up the whole string. -/
def reDigitsMid (pre suf : List Char) (s : List Char) : Bool :=
  pre.isPrefixOf s &&
    (let rest := s.drop pre.length
     suf.isSuffixOf rest &&
       (let mid := rest.take (rest.length - suf.length)
        decide (rest.length ≥ suf.length) && !mid.isEmpty && mid.all Char.isDigit &&
          (mid ++ suf == rest)))

/-- `/^pre[.]suf(.*)$/` with an unescaped `.` between `pre` and `suf`
(the `electrical\.batteries.279` rule): prefix, one arbitrary
non-newline character, the literal `suf`, then a newline-free tail. -/
def reAnyCharMid (pre suf : List Char) (s : List Char) : Bool :=
  pre.isPrefixOf s &&
    (match s.drop pre.length with
     | c :: r => (c != '\n') && suf.isPrefixOf r && noLF (r.drop suf.length)
     | [] => false)

/-- The `dump` rule list, in source order. -/
def dumpPatterns : List (List Char → Bool) :=
  [ reContains "totalPanel".toList
  , reContains "ModeNumber".toList
  , reContains "consumedCharge".toList
  , reAnyCharMid "electrical.batteries".toList "279".toList ]

/-- The `state` rule list, in source order. -/
def statePatterns : List (List Char → Bool) :=
  [ reEndsAlt ["mode".toList, "Mode".toList]
  , reEndsAlt [".name".toList]
  , reEndsAlt [".state".toList]
  , reDigitsMid "electrical.batteries.".toList ".capacity.dischargedEnergy".toList
  , reDigitsMid "electrical.batteries.".toList ".capacity.stateOfCharge".toList
  , reDigitsMid "electrical.batteries.".toList ".lifetimeDischarge".toList
  , reDigitsMid "electrical.solar.".toList ".systemYield".toList
  , reDigitsMid "electrical.solar.".toList ".yieldToday".toList
  , reDigitsMid "electrical.solar.".toList ".yieldYesterday".toList
  , reExact "navigation.courseRhumbline.nextPoint.position".toList
  , reStartsWith "navigation.currentRoute.".toList
  , reStartsWith "navigation.gns".toList
  , reExact "navigation.magneticVariation".toList
  , reExact "navigation.trip.log".toList
  , reStartsWith "notifications".toList
  , reStartsWith "sensors.ais".toList
  , reStartsWith "steering".toList ]

/-- The `position` rule list. -/
def positionPatterns : List (List Char → Bool) :=
  [ reExact "navigation.position".toList ]

/-- The `sensor` rule list, in source order. -/
def sensorPatterns : List (List Char → Bool) :=
  [ reEndsAlt ["current".toList, "Current".toList]
  , reEndsAlt ["power".toList, "Power".toList]
  , reEndsAlt ["voltage".toList, "Voltage".toList]
  , reEndsAlt ["temperature".toList, "Temperature".toList]
  , reStartsWith "environment".toList
  , reStartsWith "navigation".toList ]

/-- Does any rule of the list match the path? (the inner `for` loops of
`categorizeData`). -/
def matchesAny (ps : List (List Char → Bool)) (s : List Char) : Bool :=
  ps.any fun p => p s

/-- The categories; `dump` is the discard pseudo-category. -/
inductive Category where
  | dump
  | state
  | position
  | sensor
deriving DecidableEq, Repr

/-- `categorizeData(path)`: the `dump` list is tested first and a match
returns `'dump'` at once; then the remaining lists are tested in the
object's insertion order (`state`, `position`, `sensor`); no match falls
through to `'dump'`. -/
def categorizeData (path : String) : Category :=
  let s := path.toList
  if matchesAny dumpPatterns s then .dump
  else if matchesAny statePatterns s then .state
  else if matchesAny positionPatterns s then .position
  else if matchesAny sensorPatterns s then .sensor
  else .dump

/-! ## Throttling (`shouldTransmit`, `lastTransmissionTimes`) -/

/-- The plugin options (`plugin.options`): the three per-category sample
rates, each possibly absent. -/
structure Options where
  positionSampleRate : Option ℚ
  sensorSampleRate : Option ℚ
  stateSampleRate : Option ℚ
deriving DecidableEq

/-- JavaScript `x || d` on an optional numeric option: an absent or
falsy (zero) configured value falls back to the default. -/
def orDefault : Option ℚ → ℚ → ℚ
  | some q, d => if q = 0 then d else q
  | none, d => d

/-- The `switch (category)` of `shouldTransmit`: the per-category sample
rate, with the documented defaults and the `default:` fallback of
1000 ms for any other category. -/
def sampleRateFor (opts : Options) : Category → ℚ
  | .position => orDefault opts.positionSampleRate 1000
  | .sensor => orDefault opts.sensorSampleRate 2000
  | .state => orDefault opts.stateSampleRate 500
  | .dump => 1000

/-- `lastTransmissionTimes`: a path-keyed map of epoch-millisecond
times, modelled as an association list. -/
abbrev ThrottleMap := List (String × ℚ)

/-- `lastTransmissionTimes[path] || 0`: the last transmission time for
a path, defaulting to 0 for a path never seen. -/
def lastOf (m : ThrottleMap) (p : String) : ℚ :=
  match m.find? (fun e => e.1 == p) with
  | some e => e.2
  | none => 0

/-- `lastTransmissionTimes[path] = t`: update (or add) the entry for a
path. -/
def setLast (m : ThrottleMap) (p : String) (t : ℚ) : ThrottleMap :=
  match m with
  | [] => [(p, t)]
  | e :: rest => if e.1 = p then (p, t) :: rest else e :: setLast rest p t

/-- `shouldTransmit(path, category, timestamp)`.  The function reads
`Date.now()` (the `now` parameter here) and the per-path map; its
`timestamp` argument is accepted but never used, exactly as in the
source.  It allows transmission iff `now - lastTransmissionTime >=
sampleRate`. -/
def shouldTransmit (opts : Options) (m : ThrottleMap) (path : String)
    (category : Category) (now : ℚ) (timestamp : JSValue) : Bool :=
  let _ := timestamp
  sampleRateFor opts category ≤ now - lastOf m path

/-! ## The ingestion pipeline (`processValueObj`) -/

/-- A raw value object from the delta stream, as far as the plugin
destructures it: `path` (a string in the SignalK stream), `value`,
`timestamp`, and the optional `$source` tag. -/
structure RawValue where
  path : String
  value : JSValue
  timestamp : JSValue
  source : Option String

/-- The canonical output record `{path, time, value, source}`; `time`
is `Math.floor` of an epoch-millisecond number, or `none` for `NaN`. -/
structure Measurement where
  path : String
  time : Option ℤ
  value : JSValue
  source : String

/-- The validity filter `!path || value === undefined || !timestamp`. -/
def invalidInput (raw : RawValue) : Bool :=
  raw.path == "" || isUndefined raw.value || falsy raw.timestamp

/-- The degenerate-position filter: the record is position-categorized,
its value is truthy, of object type, and `Number` of its latitude or
longitude is exactly 0. -/
def positionDegenerate (category : Category) (v : JSValue) : Bool :=
  category == .position && !falsy v && isObjectType v &&
    (toNumber (getField v "latitude") == some 0 ||
     toNumber (getField v "longitude") == some 0)

/-- `valueObj['$source'] || 'unknown'`. -/
def extractSource : Option String → String
  | some s => if s == "" then "unknown" else s
  | none => "unknown"

/-- Timestamp normalization (lines 261–269 of `processValueObj`): a
string timestamp is parsed with `new Date(...).getTime()` (the external
parser `f`; `none` is `NaN`, and `Math.floor(NaN)` is `NaN`); a numeric
timestamp above `1e12` is taken as milliseconds and otherwise as
seconds; any other shape falls back to `Date.now()`. -/
def normalizeTimestamp (f : String → Option ℤ) (ts : JSValue) (now : ℚ) : Option ℤ :=
  match ts with
  | .str s => f s
  | .num q => some (if (10 : ℚ) ^ 12 < q then ⌊q⌋ else ⌊q * 1000⌋)
  | .nan => none
  | _ => some ⌊now⌋

/-- The pipeline stages of `processValueObj` after the validity filter:
classification (discarding `dump`), the degenerate-position filter, the
throttle gate, the `lastTransmissionTimes[path] = Date.now()` update,
and the construction of the measurement handed to `writeToSocket`.  The
result pairs the updated throttle map with the write that happened (the
target category and the record), or `none` when the value was
dropped. -/
def processAfterValidity (f : String → Option ℤ) (opts : Options)
    (st : ThrottleMap) (now : ℚ) (raw : RawValue) :
    ThrottleMap × Option (Category × Measurement) :=
  let category := categorizeData raw.path
  if category == .dump then (st, none)
  else if positionDegenerate category raw.value then (st, none)
  else if !shouldTransmit opts st raw.path category now raw.timestamp then (st, none)
  else
    (setLast st raw.path now,
     some (category,
       { path := raw.path
         time := normalizeTimestamp f raw.timestamp now
         value := raw.value
         source := extractSource raw.source }))

/-- `processValueObj(valueObj)`: the whole per-event pipeline.
`now` is `Date.now()` at processing time and `f` is the external date
parser used for string timestamps. -/
def processValueObj (f : String → Option ℤ) (opts : Options)
    (st : ThrottleMap) (now : ℚ) (raw : RawValue) :
    ThrottleMap × Option (Category × Measurement) :=
  if invalidInput raw then (st, none)
  else processAfterValidity f opts st now raw

/-! ## Serialization (`serializeData`, `JSON.stringify`) and sockets -/

/-- Rendering of a JS number as a string, for the values the plugin
produces: integers render as decimal numerals, and finite decimal
fractions (every JS double with a short decimal form, e.g. `5.1`) as
`intpart.fracpart` without trailing zeros.  Rationals with no finite
decimal expansion cannot arise from JS doubles and get a fallback
rendering; exponent forms (|x| ≥ 1e21 or < 1e-6) are outside the
modelled range. -/
def jsNumToString (q : ℚ) : String :=
  let sign := if q < 0 then "-" else ""
  let n := q.num.natAbs
  let d := q.den
  match (List.range 40).find? (fun k => 10 ^ k % d == 0) with
  | some k =>
      let scaled := n * 10 ^ k / d
      if k = 0 then sign ++ toString scaled
      else
        let ip := scaled / 10 ^ k
        let fp := scaled % 10 ^ k
        let fpStr := toString fp
        let padded := String.mk (List.replicate (k - fpStr.length) '0') ++ fpStr
        let trimmed := String.mk ((padded.toList.reverse.dropWhile (fun c => c == '0')).reverse)
        if trimmed = "" then sign ++ toString ip
        else sign ++ toString ip ++ "." ++ trimmed
  | none => sign ++ toString n ++ "/" ++ toString d

/-- JSON string escaping for the characters that can occur in the
plugin's data: quote, backslash and newline. -/
def jsonEscapeChar (c : Char) : List Char :=
  if c = '"' then ['\\', '"']
  else if c = '\\' then ['\\', '\\']
  else if c = '\n' then ['\\', 'n']
  else [c]

/-- A JSON string literal. -/
def jsonQuote (s : String) : String :=
  "\"" ++ String.mk (s.toList.map jsonEscapeChar).flatten ++ "\""

mutual

/-- `JSON.stringify`: `null` and `NaN` render as `null`, objects keep
insertion order.  A top-level `undefined` is the undefined result in
JS; the plugin only ever stringifies objects, and the string
`"undefined"` here mirrors the coercion `JSON.stringify(data) + '\n'`
would apply in that unreachable case. -/
def jsonStringify : JSValue → String
  | .null => "null"
  | .nan => "null"
  | .undefined => "undefined"
  | .bool true => "true"
  | .bool false => "false"
  | .num q => jsNumToString q
  | .str s => jsonQuote s
  | .obj l => "\x7b" ++ jsonFields l ++ "\x7d"

/-- The body of a JSON object: fields in insertion order,
`undefined`-valued fields skipped, comma-separated. -/
def jsonFields : List (String × JSValue) → String
  | [] => ""
  | (k, v) :: rest =>
      if isUndefined v then jsonFields rest
      else
        let entry := jsonQuote k ++ ":" ++ jsonStringify v
        let restStr := jsonFields rest
        if restStr = "" then entry else entry ++ "," ++ restStr

end

/-- `String(v)` / template-literal coercion of a JS value. -/
def displayString : JSValue → String
  | .str s => s
  | .num q => jsNumToString q
  | .nan => "NaN"
  | .bool true => "true"
  | .bool false => "false"
  | .null => "null"
  | .undefined => "undefined"
  | .obj _ => "[object Object]"

/-- `.replace(/\|/g, '\\|')`: escape pipe characters. -/
def escapePipes (s : String) : String :=
  String.mk ((s.toList.map (fun c => if c = '|' then ['\\', '|'] else [c])).flatten)

/-- Rendering of the (possibly `NaN`) millisecond timestamp inside a
template literal. -/
def tsRender : Option ℤ → String
  | some n => toString n
  | none => "NaN"

/-- `serializeData(data)`: the compact pipe-delimited format
`timestamp_ms|path|source|value` terminated by a newline.  The function
reads `data.timestamp` (absent on the `{path, time, value, source}`
measurement the commented-out call would pass, which makes the
`Date.now()` fallback apply), escapes pipes in the source and in string
values, JSON-encodes object values, and stringifies the rest.  The
surrounding `try/catch` returns `null` on an exception (e.g. `.replace`
on a truthy non-string source), modelled as `none`. -/
def serializeData (f : String → Option ℤ) (data : JSValue) (now : ℚ) : Option String :=
  let timestampMs : Option ℤ :=
    match getField data "timestamp" with
    | .str s => f s
    | .num q => some (if (10 : ℚ) ^ 12 < q then ⌊q⌋ else ⌊q * 1000⌋)
    | .nan => none
    | _ => some ⌊now⌋
  let srcField := getField data "source"
  let escapedSource? : Option String :=
    if falsy srcField then some "unknown"
    else
      match srcField with
      | .str s => some (escapePipes s)
      | _ => none
  match escapedSource? with
  | none => none
  | some escapedSource =>
      let serializedValue :=
        match getField data "value" with
        | .obj l => jsonStringify (.obj l)
        | .str s => escapePipes s
        | v => displayString v
      some (tsRender timestampMs ++ "|" ++ displayString (getField data "path") ++ "|"
        ++ escapedSource ++ "|" ++ serializedValue ++ "\n")

/-- The observable state of a `net.Socket` that `writeToSocket`
inspects.  `socketClients[category]` being `null`/absent is modelled by
`Option Socket`. -/
structure Socket where
  destroyed : Bool
  writable : Bool
deriving DecidableEq

/-- `writeToSocket(category, data)` for one category's socket: if the
socket is absent, destroyed, or not writable, the write is skipped
(debug log only); otherwise `JSON.stringify(data) + '\n'` is written.
The plugin's options are in scope but never consulted here (the
pipe-delimited `serializeData` call is commented out in the source).
The body is wrapped in `try/catch` and the write callback only logs, so
the function is total and no exception reaches the caller; `none` is
the silently-dropped outcome. -/
def writeToSocket (opts : Options) (sock : Option Socket) (data : JSValue) : Option String :=
  let _ := opts
  match sock with
  | none => none
  | some c =>
      if c.destroyed || !c.writable then none
      else some (jsonStringify data ++ "\n")

/-- The measurement object `{path, time, value, source}` as the JS
value passed to `writeToSocket` (a `NaN` time is the `nan` value). -/
def measurementToJS (m : Measurement) : JSValue :=
  .obj [("path", .str m.path),
        ("time", match m.time with | some t => .num (t : ℚ) | none => .nan),
        ("value", m.value),
        ("source", .str m.source)]

/-! ## The per-category reconnection state machine

One category's slice of the module state: the global `isShuttingDown`
flag, whether `reconnectTimers[category]` holds a timer handle
(`timerSlot`), how many armed `setTimeout` callbacks for this category
actually exist (`pendingTimers` — the quantity the "at most one pending
timer" invariant is about), and how many `connectToSocket` calls have
happened (`connects`).  Categories share no per-category state, so one
machine per category is faithful. -/
structure ConnState where
  shuttingDown : Bool
  timerSlot : Bool
  pendingTimers : ℕ
  connects : ℕ
deriving DecidableEq

/-- The asynchronous events driving one category's machine: the
socket's `close` event, the reconnect timer firing, and `plugin.stop`. -/
inductive SockEvent where
  | closeEv
  | fireEv
  | stopEv
deriving DecidableEq

/-- `scheduleReconnection(category)`: a no-op while shutting down or
while a timer handle is already stored; otherwise arms one timer. -/
def scheduleReconnection (s : ConnState) : ConnState :=
  if s.shuttingDown || s.timerSlot then s
  else { s with timerSlot := true, pendingTimers := s.pendingTimers + 1 }

/-- One event step.  `close` schedules a reconnection unless shutting
down (the handler checks `!isShuttingDown` and `scheduleReconnection`
re-checks).  A timer can only fire if one is armed; the callback nulls
the stored handle and calls `connectToSocket` unless shutting down.
`plugin.stop` sets `isShuttingDown`, clears the timer via
`clearTimeout` and nulls the handle. -/
def stepEvent (s : ConnState) : SockEvent → ConnState
  | .closeEv => if s.shuttingDown then s else scheduleReconnection s
  | .fireEv =>
      if s.pendingTimers = 0 then s
      else
        let s1 := { s with pendingTimers := s.pendingTimers - 1, timerSlot := false }
        if s1.shuttingDown then s1 else { s1 with connects := s1.connects + 1 }
  | .stopEv => { s with shuttingDown := true, timerSlot := false, pendingTimers := 0 }

/-- Run a sequence of events. -/
def runEvents (s : ConnState) (tr : List SockEvent) : ConnState :=
  tr.foldl stepEvent s

/-- The state after `plugin.start`: not shutting down, no timer, one
initial `connectToSocket` call. -/
def initConnState : ConnState :=
  { shuttingDown := false, timerSlot := false, pendingTimers := 0, connects := 1 }

/-- The per-category machine invariant: the stored timer handle and the
number of armed timers agree, and no handle survives shutdown. -/
def ConnInv (s : ConnState) : Prop :=
  s.pendingTimers = (if s.timerSlot then 1 else 0) ∧
    (s.shuttingDown = true → s.timerSlot = false)

/-- Modelled from the spec: the claim (C8) that the pipe-delimited
format (b) is "selectable by configuration" — some configuration
options make the socket write of a record produce exactly the
`serializeData` pipe-delimited line for it.  No configuration surface
for this exists in `src/index.js` (its schema offers only the three
sample rates), so this predicate follows the spec's words and is
compared against the source's `writeToSocket`. -/
def formatBSelectable (f : String → Option ℤ) (sock : Option Socket)
    (data : JSValue) (now : ℚ) : Prop :=
  ∃ opts : Options, ∃ line : String,
    serializeData f data now = some line ∧ writeToSocket opts sock data = some line


/-! ## Sanity checks on the classifier -/

example : categorizeData "navigation.speedOverGround" = .sensor := by decide
example : categorizeData "navigation.position" = .position := by decide
example : categorizeData "some.unmatched.thing" = .dump := by decide
example : categorizeData "electrical.batteries.12.capacity.stateOfCharge" = .state := by decide
example : categorizeData "propulsion.main.temperature" = .sensor := by decide

/-! ## Helper lemmas -/

theorem lastOf_single (p : String) (t : ℚ) : lastOf [(p, t)] p = t := by
  simp [lastOf, List.find?]

theorem connInv_step (s : ConnState) (e : SockEvent) (h : ConnInv s) :
    ConnInv (stepEvent s e) := by
  obtain ⟨sd, tsl, pt, cn⟩ := s
  obtain ⟨h1, h2⟩ := h
  simp only [ConnInv] at *
  cases sd <;> cases tsl <;> cases e <;>
    simp_all [stepEvent, scheduleReconnection]

theorem connInv_run (s : ConnState) (tr : List SockEvent) (h : ConnInv s) :
    ConnInv (runEvents s tr) := by
  induction tr generalizing s with
  | nil => simpa [runEvents] using h
  | cons e tr ih =>
      simpa [runEvents] using ih (stepEvent s e) (connInv_step s e h)

theorem stopped_step (s : ConnState) (e : SockEvent)
    (h1 : s.shuttingDown = true) (h2 : s.pendingTimers = 0) :
    (stepEvent s e).connects = s.connects ∧ (stepEvent s e).shuttingDown = true ∧
      (stepEvent s e).pendingTimers = 0 := by
  cases e <;> simp [stepEvent, h1, h2]

theorem stopped_run (s : ConnState) (tr : List SockEvent)
    (h1 : s.shuttingDown = true) (h2 : s.pendingTimers = 0) :
    (runEvents s tr).connects = s.connects := by
  induction tr generalizing s with
  | nil => simp [runEvents]
  | cons e tr ih =>
      obtain ⟨hc, hs, hp⟩ := stopped_step s e h1 h2
      calc (runEvents (stepEvent s e) tr).connects
          = (stepEvent s e).connects := ih (stepEvent s e) hs hp
        _ = s.connects := hc

/-! ## Claim C3 — dump precedence -/

/-- C3: every path that matches at least one rule of the `dump` list is
classified `dump`, even if it also matches a rule of `state`,
`position` or `sensor`: `categorizeData` evaluates the dump list first
and a match short-circuits all other category evaluation. -/
theorem dump_precedence (path : String)
    (h : matchesAny dumpPatterns path.toList = true) :
    categorizeData path = .dump := by
  have h' : matchesAny dumpPatterns path.data = true := h
  simp [categorizeData, h']

/-- Witness for C3 at a path that matches both a dump rule
(`totalPanel`) and a sensor rule (suffix `Power`). -/
theorem dump_precedence_witness :
    matchesAny dumpPatterns "electrical.totalPanelPower".toList = true ∧
    matchesAny sensorPatterns "electrical.totalPanelPower".toList = true ∧
    categorizeData "electrical.totalPanelPower" = .dump :=
  ⟨by decide, by decide, dump_precedence "electrical.totalPanelPower" (by decide)⟩

/-! ## Claim C2 — the throttle gate -/

/-- C2: `shouldTransmit` allows transmission iff
`now - lastTransmission(path) ≥ interval(category)`, the last
transmission time defaulting to 0 for a path never seen; for two events
on the same path at times `t` and `t + I - 1` the second is disallowed,
and at exactly `t + I` it is allowed (the `>=` comparison is
inclusive). -/
theorem shouldTransmit_boundary (opts : Options) (st : ThrottleMap) (path : String)
    (cat : Category) (now : ℚ) (ts : JSValue) :
    (shouldTransmit opts st path cat now ts = true ↔
      sampleRateFor opts cat ≤ now - lastOf st path)
    ∧ (st.find? (fun e => e.1 == path) = none → lastOf st path = 0)
    ∧ (∀ t : ℚ,
        shouldTransmit opts [(path, t)] path cat (t + sampleRateFor opts cat - 1) ts = false)
    ∧ (∀ t : ℚ,
        shouldTransmit opts [(path, t)] path cat (t + sampleRateFor opts cat) ts = true) := by
  refine ⟨by simp [shouldTransmit], fun h => by simp [lastOf, h], fun t => ?_, fun t => ?_⟩
  · simp only [shouldTransmit, lastOf_single, decide_eq_false_iff_not, not_le]
    linarith
  · simp only [shouldTransmit, lastOf_single, decide_eq_true_eq]
    linarith

/-- Witness for C2: with the default sensor interval (2000 ms), a path
last sent at time 0 is allowed again at `now = 2000`, and an unseen
path has last-transmission time 0. -/
theorem shouldTransmit_boundary_witness :
    shouldTransmit ⟨none, none, none⟩ [("a", 0)] "a" .sensor 2000 .undefined = true ∧
    lastOf [] "a" = 0 := by
  constructor
  · have h := (shouldTransmit_boundary ⟨none, none, none⟩ [("a", 0)] "a" .sensor 2000
      .undefined).2.2.2 0
    simpa [sampleRateFor, orDefault] using h
  · exact (shouldTransmit_boundary ⟨none, none, none⟩ [] "a" .sensor 0 .undefined).2.1 rfl

/-! ## Claim C6 — the write guard -/

/-- C6: `writeToSocket` delivers the serialized record
(`JSON.stringify(record) + '\n'`) exactly when the category's socket
exists, is writable and is not destroyed; otherwise the write yields
nothing (silently dropped).  The function is total, so no exception
propagates to the ingestion pipeline. -/
theorem writeToSocket_guard (opts : Options) (sock : Option Socket) (data : JSValue) :
    (writeToSocket opts sock data = some (jsonStringify data ++ "\n") ↔
      ∃ c : Socket, sock = some c ∧ c.destroyed = false ∧ c.writable = true)
    ∧ ((∀ c : Socket, sock = some c → c.destroyed = true ∨ c.writable = false) →
      writeToSocket opts sock data = none) := by
  cases sock with
  | none => exact ⟨by simp [writeToSocket], fun _ => rfl⟩
  | some c =>
      obtain ⟨d, w⟩ := c
      cases d with
      | false =>
          cases w with
          | false =>
              refine ⟨⟨fun h => (nomatch h), ?_⟩, fun _ => rfl⟩
              rintro ⟨c, hc, -, hw⟩
              cases hc
              exact nomatch hw
          | true =>
              exact ⟨⟨fun _ => ⟨⟨false, true⟩, rfl, rfl, rfl⟩, fun _ => rfl⟩,
                fun h => absurd (h ⟨false, true⟩ rfl) (by simp)⟩
      | true =>
          cases w <;>
            · refine ⟨⟨fun h => (nomatch h), ?_⟩, fun _ => rfl⟩
              rintro ⟨c, hc, hd, -⟩
              cases hc
              exact nomatch hd

/-- Witness for C6: a destroyed socket drops the write; a live writable
socket delivers it. -/
theorem writeToSocket_guard_witness :
    writeToSocket ⟨none, none, none⟩ (some ⟨true, true⟩) (.str "v") = none ∧
    writeToSocket ⟨none, none, none⟩ (some ⟨false, true⟩) (.str "v")
      = some (jsonStringify (.str "v") ++ "\n") := by
  constructor
  · exact (writeToSocket_guard ⟨none, none, none⟩ (some ⟨true, true⟩) (.str "v")).2
      (fun c h => by cases h; exact Or.inl rfl)
  · exact (writeToSocket_guard ⟨none, none, none⟩ (some ⟨false, true⟩) (.str "v")).1.mpr
      ⟨⟨false, true⟩, rfl, rfl, rfl⟩

/-! ## Claim C7 — at most one reconnect timer -/

/-- C7: along any event trace from the started state, at most one
reconnect timer is pending for a category; a close event arriving while
a timer is pending changes nothing (`scheduleReconnection` is a no-op);
and after `plugin.stop` no timer is pending and no further
`connectToSocket` call ever happens. -/
theorem reconnect_timer_once :
    (∀ tr : List SockEvent, (runEvents initConnState tr).pendingTimers ≤ 1)
    ∧ (∀ s : ConnState, s.timerSlot = true → stepEvent s .closeEv = s)
    ∧ (∀ s : ConnState, ∀ tr : List SockEvent,
        (stepEvent s .stopEv).pendingTimers = 0 ∧
        (runEvents (stepEvent s .stopEv) tr).connects = s.connects) := by
  refine ⟨fun tr => ?_, fun s h => ?_, fun s tr => ⟨rfl, ?_⟩⟩
  · have h := connInv_run initConnState tr ⟨rfl, fun h => rfl⟩
    rcases h with ⟨h1, -⟩
    rw [h1]
    split <;> omega
  · by_cases hsd : s.shuttingDown = true <;>
      simp [stepEvent, scheduleReconnection, hsd, h]
  · exact stopped_run _ tr rfl rfl

/-- Witness for C7: a close event with a timer already pending leaves
the state unchanged. -/
theorem reconnect_timer_once_witness :
    stepEvent ⟨false, true, 1, 1⟩ .closeEv = ⟨false, true, 1, 1⟩ :=
  reconnect_timer_once.2.1 ⟨false, true, 1, 1⟩ rfl


/-! ## Pipeline helper lemmas -/

theorem processValueObj_invalid (f : String → Option ℤ) (opts : Options)
    (st : ThrottleMap) (now : ℚ) (raw : RawValue) (h : invalidInput raw = true) :
    processValueObj f opts st now raw = (st, none) := by
  simp [processValueObj, h]

theorem processValueObj_valid (f : String → Option ℤ) (opts : Options)
    (st : ThrottleMap) (now : ℚ) (raw : RawValue) (h : invalidInput raw = false) :
    processValueObj f opts st now raw = processAfterValidity f opts st now raw := by
  simp [processValueObj, h]

theorem processAfterValidity_dump (f : String → Option ℤ) (opts : Options)
    (st : ThrottleMap) (now : ℚ) (raw : RawValue)
    (h : categorizeData raw.path = .dump) :
    processAfterValidity f opts st now raw = (st, none) := by
  simp [processAfterValidity, h]

theorem processAfterValidity_degenerate (f : String → Option ℤ) (opts : Options)
    (st : ThrottleMap) (now : ℚ) (raw : RawValue) (cat : Category)
    (hcat : categorizeData raw.path = cat)
    (hdeg : positionDegenerate cat raw.value = true) :
    processAfterValidity f opts st now raw = (st, none) := by
  by_cases hdump : cat = .dump
  · simp [processAfterValidity, hcat, hdump]
  · simp [processAfterValidity, hcat, beq_eq_false_iff_ne.mpr hdump, hdeg]

theorem processAfterValidity_throttled (f : String → Option ℤ) (opts : Options)
    (st : ThrottleMap) (now : ℚ) (raw : RawValue) (cat : Category)
    (hcat : categorizeData raw.path = cat) (hdump : cat ≠ .dump)
    (hdeg : positionDegenerate cat raw.value = false)
    (hst : shouldTransmit opts st raw.path cat now raw.timestamp = false) :
    processAfterValidity f opts st now raw = (st, none) := by
  simp [processAfterValidity, hcat, beq_eq_false_iff_ne.mpr hdump, hdeg, hst]

theorem processAfterValidity_forward (f : String → Option ℤ) (opts : Options)
    (st : ThrottleMap) (now : ℚ) (raw : RawValue) (cat : Category)
    (hcat : categorizeData raw.path = cat) (hdump : cat ≠ .dump)
    (hdeg : positionDegenerate cat raw.value = false)
    (hst : shouldTransmit opts st raw.path cat now raw.timestamp = true) :
    processAfterValidity f opts st now raw =
      (setLast st raw.path now,
        some (cat,
          { path := raw.path, time := normalizeTimestamp f raw.timestamp now,
            value := raw.value, source := extractSource raw.source })) := by
  simp [processAfterValidity, hcat, beq_eq_false_iff_ne.mpr hdump, hdeg, hst]

/-! ## Claim C1 — end-to-end scenario -/

/-- C1: the RawValue `{path: "navigation.speedOverGround", value: 5.1,
timestamp: 1694458123, $source: "gps.0"}`, arriving at wall-clock time
`now` with no prior throttle record and the default sensor interval of
2000 ms, is classified `sensor` and produces exactly one write to the
sensor connection of the record `{path: "navigation.speedOverGround",
time: 1694458123000, value: 5.1, source: "gps.0"}` (delivered as one
serialized line when the sensor socket is writable); a second identical
event 500 ms later on the same path produces no write.  The hypothesis
`2000 ≤ now` says the wall clock is at least one sensor interval past
the epoch — always true in practice, and what the unseen path's default
last-transmission time of 0 needs in order to pass the gate. -/
theorem endToEnd_speedOverGround (f : String → Option ℤ) (now : ℚ)
    (h : 2000 ≤ now) :
    categorizeData "navigation.speedOverGround" = .sensor
    ∧ processValueObj f ⟨none, none, none⟩ [] now
        ⟨"navigation.speedOverGround", .num 5.1, .num 1694458123, some "gps.0"⟩ =
        ([("navigation.speedOverGround", now)],
          some (.sensor,
            { path := "navigation.speedOverGround", time := some 1694458123000,
              value := .num 5.1, source := "gps.0" }))
    ∧ processValueObj f ⟨none, none, none⟩ [("navigation.speedOverGround", now)] (now + 500)
        ⟨"navigation.speedOverGround", .num 5.1, .num 1694458123, some "gps.0"⟩ =
        ([("navigation.speedOverGround", now)], none)
    ∧ writeToSocket ⟨none, none, none⟩ (some ⟨false, true⟩)
        (measurementToJS
          { path := "navigation.speedOverGround", time := some 1694458123000,
            value := .num 5.1, source := "gps.0" }) =
        some (jsonStringify
          (measurementToJS
            { path := "navigation.speedOverGround", time := some 1694458123000,
              value := .num 5.1, source := "gps.0" }) ++ "\n") := by
  have hc : categorizeData "navigation.speedOverGround" = .sensor := by decide
  have hinv : invalidInput
      ⟨"navigation.speedOverGround", .num 5.1, .num 1694458123, some "gps.0"⟩ = false := by
    decide
  refine ⟨hc, ?_, ?_, rfl⟩
  · have hst : shouldTransmit ⟨none, none, none⟩ [] "navigation.speedOverGround" .sensor now
        (.num 1694458123) = true := by
      simp only [shouldTransmit, sampleRateFor, orDefault, lastOf, List.find?,
        decide_eq_true_eq]
      linarith
    have hnt : normalizeTimestamp f (.num 1694458123) now = some 1694458123000 := by
      simp only [normalizeTimestamp]
      rw [if_neg (by norm_num)]
      norm_num
    rw [processValueObj_valid f ⟨none, none, none⟩ [] now
        ⟨"navigation.speedOverGround", .num 5.1, .num 1694458123, some "gps.0"⟩ hinv,
      processAfterValidity_forward f ⟨none, none, none⟩ [] now
        ⟨"navigation.speedOverGround", .num 5.1, .num 1694458123, some "gps.0"⟩ .sensor
        hc (by decide) rfl hst, hnt]
    rfl
  · have hst : shouldTransmit ⟨none, none, none⟩ [("navigation.speedOverGround", now)]
        "navigation.speedOverGround" .sensor (now + 500) (.num 1694458123) = false := by
      simp only [shouldTransmit, sampleRateFor, orDefault, lastOf_single,
        decide_eq_false_iff_not, not_le]
      linarith
    rw [processValueObj_valid f ⟨none, none, none⟩ [("navigation.speedOverGround", now)]
        (now + 500)
        ⟨"navigation.speedOverGround", .num 5.1, .num 1694458123, some "gps.0"⟩ hinv,
      processAfterValidity_throttled f ⟨none, none, none⟩
        [("navigation.speedOverGround", now)] (now + 500)
        ⟨"navigation.speedOverGround", .num 5.1, .num 1694458123, some "gps.0"⟩ .sensor
        hc (by decide) rfl hst]

/-- Witness for C1 at the concrete wall-clock time 2000. -/
theorem endToEnd_speedOverGround_witness :
    processValueObj (fun _ => none) ⟨none, none, none⟩ [] 2000
        ⟨"navigation.speedOverGround", .num 5.1, .num 1694458123, some "gps.0"⟩ =
      ([("navigation.speedOverGround", 2000)],
        some (.sensor,
          { path := "navigation.speedOverGround", time := some 1694458123000,
            value := .num 5.1, source := "gps.0" })) :=
  (endToEnd_speedOverGround (fun _ => none) 2000 (by norm_num)).2.1

/-! ## Claim C4 — degenerate-position filter -/

theorem isUndefined_eq_false {v : JSValue} (h : v ≠ .undefined) : isUndefined v = false := by
  cases v <;> simp [isUndefined]
  exact h rfl

/-- C4: a `position`-classified RawValue whose value is a structured
object with latitude or longitude numerically equal to zero is silently
dropped before the throttle gate, leaving the throttle map untouched;
with both coordinates numerically nonzero this filter does not drop the
record, which proceeds to the throttle gate. -/
theorem position_zero_filter (f : String → Option ℤ) (opts : Options)
    (st : ThrottleMap) (now : ℚ) (path : String)
    (fields : List (String × JSValue)) (ts : JSValue) (src : Option String) (qa qb : ℚ) :
    (categorizeData path = .position →
      (toNumber (getField (.obj fields) "latitude") = some 0 ∨
        toNumber (getField (.obj fields) "longitude") = some 0) →
      processValueObj f opts st now ⟨path, .obj fields, ts, src⟩ = (st, none))
    ∧ (categorizeData path = .position → path ≠ "" → falsy ts = false →
      toNumber (getField (.obj fields) "latitude") = some qa → qa ≠ 0 →
      toNumber (getField (.obj fields) "longitude") = some qb → qb ≠ 0 →
      processValueObj f opts st now ⟨path, .obj fields, ts, src⟩ =
        (if shouldTransmit opts st path .position now ts then
          (setLast st path now,
            some (.position,
              { path := path, time := normalizeTimestamp f ts now,
                value := .obj fields, source := extractSource src }))
        else (st, none))) := by
  constructor
  · intro hcat hz
    have hdeg : positionDegenerate .position (.obj fields) = true := by
      simp only [positionDegenerate, falsy, isObjectType, Bool.not_false, Bool.and_true,
        Bool.true_and, beq_self_eq_true]
      rcases hz with h | h <;> simp [h]
    by_cases hinv : invalidInput ⟨path, .obj fields, ts, src⟩ = true
    · exact processValueObj_invalid f opts st now _ hinv
    · rw [processValueObj_valid f opts st now _ (Bool.eq_false_iff.mpr hinv)]
      exact processAfterValidity_degenerate f opts st now _ .position hcat hdeg
  · intro hcat hpath hts hla hqa hlo hqb
    have hinv : invalidInput ⟨path, .obj fields, ts, src⟩ = false := by
      simp [invalidInput, beq_eq_false_iff_ne.mpr hpath, isUndefined, hts]
    have hdeg : positionDegenerate .position (.obj fields) = false := by
      simp [positionDegenerate, hla, hlo, hqa, hqb]
    rw [processValueObj_valid f opts st now _ hinv]
    by_cases hstb : shouldTransmit opts st path .position now ts = true
    · rw [if_pos hstb]
      exact processAfterValidity_forward f opts st now _ .position hcat (by decide) hdeg hstb
    · rw [if_neg hstb]
      exact processAfterValidity_throttled f opts st now _ .position hcat (by decide) hdeg
        (Bool.eq_false_iff.mpr hstb)

/-- Witness for C4: `{latitude: 0, longitude: 12.3}` at
`navigation.position` is dropped with the throttle map untouched. -/
theorem position_zero_filter_witness :
    processValueObj (fun _ => none) ⟨none, none, none⟩ [] 1000
        ⟨"navigation.position", .obj [("latitude", .num 0), ("longitude", .num 12.3)],
          .num 1, some "gps.0"⟩ = ([], none) :=
  (position_zero_filter (fun _ => none) ⟨none, none, none⟩ [] 1000 "navigation.position"
      [("latitude", .num 0), ("longitude", .num 12.3)] (.num 1) (some "gps.0") 1 1).1
    (by decide) (Or.inl (by decide))

/-! ## Claim C9 — the validity filter -/

/-- C9: the validity filter rejects a RawValue exactly when its path is
falsy (empty), its value is strictly `undefined`, or its timestamp is
falsy; in particular a timestamp equal to the number 0 or to the empty
string is falsy (so such records are dropped even though the field is
present), while a `null` value is not `undefined` and passes — shown
end-to-end by a record with value `null` being forwarded. -/
theorem validity_filter (f : String → Option ℤ) (opts : Options)
    (st : ThrottleMap) (now : ℚ) (raw : RawValue) :
    ((raw.path = "" ∨ raw.value = .undefined ∨ falsy raw.timestamp = true) →
      processValueObj f opts st now raw = (st, none))
    ∧ ((raw.path ≠ "" ∧ raw.value ≠ .undefined ∧ falsy raw.timestamp = false) →
      processValueObj f opts st now raw = processAfterValidity f opts st now raw)
    ∧ falsy (.num 0) = true
    ∧ falsy (.str "") = true
    ∧ isUndefined .null = false
    ∧ processValueObj (fun _ => none) ⟨none, none, none⟩ [] 2000
        ⟨"navigation.speedOverGround", .null, .num 1, none⟩ =
        ([("navigation.speedOverGround", 2000)],
          some (.sensor,
            { path := "navigation.speedOverGround", time := some 1000,
              value := .null, source := "unknown" })) := by
  refine ⟨?_, ?_, by decide, rfl, rfl, ?_⟩
  · intro h
    apply processValueObj_invalid
    rcases h with h | h | h
    · simp [invalidInput, h]
    · simp [invalidInput, h, isUndefined]
    · simp [invalidInput, h]
  · rintro ⟨h1, h2, h3⟩
    exact processValueObj_valid f opts st now raw
      (by simp [invalidInput, beq_eq_false_iff_ne.mpr h1, isUndefined_eq_false h2, h3])
  · have hst : shouldTransmit ⟨none, none, none⟩ [] "navigation.speedOverGround" .sensor
        2000 (.num 1) = true := by
      simp only [shouldTransmit, sampleRateFor, orDefault, lastOf, List.find?,
        decide_eq_true_eq]
      norm_num
    have hnt : normalizeTimestamp (fun _ => none) (.num 1) (2000 : ℚ) = some 1000 := by
      simp only [normalizeTimestamp]
      rw [if_neg (by norm_num)]
      norm_num
    rw [processValueObj_valid (fun _ => none) ⟨none, none, none⟩ [] 2000
        ⟨"navigation.speedOverGround", .null, .num 1, none⟩ (by decide),
      processAfterValidity_forward (fun _ => none) ⟨none, none, none⟩ [] 2000
        ⟨"navigation.speedOverGround", .null, .num 1, none⟩ .sensor (by decide) (by decide)
        rfl hst, hnt]
    rfl

/-- Witness for C9: a present-but-zero numeric timestamp is rejected
with the throttle map untouched. -/
theorem validity_filter_witness :
    processValueObj (fun _ => none) ⟨none, none, none⟩ [] 2000
        ⟨"navigation.speedOverGround", .num 5.1, .num 0, some "gps.0"⟩ = ([], none) :=
  (validity_filter (fun _ => none) ⟨none, none, none⟩ [] 2000
      ⟨"navigation.speedOverGround", .num 5.1, .num 0, some "gps.0"⟩).1
    (Or.inr (Or.inr (by decide)))

/-! ## Claim C10 — null versus missing coordinates -/

/-- C10: in the degenerate-position filter, `Number(null) = 0`, so a
`null` latitude (or longitude) drops the position record; a missing
coordinate reads as `undefined` and `Number(undefined)` is `NaN`
(`none`), which does not trigger the filter, and (provided the other
coordinate is not numerically zero either) the record proceeds to the
throttle gate. -/
theorem position_null_vs_missing (f : String → Option ℤ) (opts : Options)
    (st : ThrottleMap) (now : ℚ) (path : String)
    (fields : List (String × JSValue)) (ts : JSValue) (src : Option String) :
    (toNumber .null = some 0 ∧ toNumber .undefined = none)
    ∧ (categorizeData path = .position →
      (getField (.obj fields) "latitude" = .null ∨
        getField (.obj fields) "longitude" = .null) →
      processValueObj f opts st now ⟨path, .obj fields, ts, src⟩ = (st, none))
    ∧ (categorizeData path = .position → path ≠ "" → falsy ts = false →
      getField (.obj fields) "latitude" = .undefined →
      (∀ q : ℚ, toNumber (getField (.obj fields) "longitude") = some q → q ≠ 0) →
      processValueObj f opts st now ⟨path, .obj fields, ts, src⟩ =
        (if shouldTransmit opts st path .position now ts then
          (setLast st path now,
            some (.position,
              { path := path, time := normalizeTimestamp f ts now,
                value := .obj fields, source := extractSource src }))
        else (st, none))) := by
  refine ⟨⟨rfl, rfl⟩, ?_, ?_⟩
  · intro hcat hz
    have hdeg : positionDegenerate .position (.obj fields) = true := by
      simp only [positionDegenerate, falsy, isObjectType, Bool.not_false, Bool.and_true,
        Bool.true_and, beq_self_eq_true]
      rcases hz with h | h <;> simp [h, toNumber]
    by_cases hinv : invalidInput ⟨path, .obj fields, ts, src⟩ = true
    · exact processValueObj_invalid f opts st now _ hinv
    · rw [processValueObj_valid f opts st now _ (Bool.eq_false_iff.mpr hinv)]
      exact processAfterValidity_degenerate f opts st now _ .position hcat hdeg
  · intro hcat hpath hts hla hlo
    have hinv : invalidInput ⟨path, .obj fields, ts, src⟩ = false := by
      simp [invalidInput, beq_eq_false_iff_ne.mpr hpath, isUndefined, hts]
    have hdeg : positionDegenerate .position (.obj fields) = false := by
      have hlat : toNumber (getField (.obj fields) "latitude") = none := by
        rw [hla]
        rfl
      cases hq : toNumber (getField (.obj fields) "longitude") with
      | none => simp [positionDegenerate, hlat, hq]
      | some q => simp [positionDegenerate, hlat, hq, hlo q hq]
    rw [processValueObj_valid f opts st now _ hinv]
    by_cases hstb : shouldTransmit opts st path .position now ts = true
    · rw [if_pos hstb]
      exact processAfterValidity_forward f opts st now _ .position hcat (by decide) hdeg hstb
    · rw [if_neg hstb]
      exact processAfterValidity_throttled f opts st now _ .position hcat (by decide) hdeg
        (Bool.eq_false_iff.mpr hstb)

/-- Witness for C10: a `null` latitude (with a nonzero longitude) drops
the position record. -/
theorem position_null_vs_missing_witness :
    processValueObj (fun _ => none) ⟨none, none, none⟩ [] 1000
        ⟨"navigation.position", .obj [("latitude", .null), ("longitude", .num 12.3)],
          .num 1, some "gps.0"⟩ = ([], none) :=
  (position_null_vs_missing (fun _ => none) ⟨none, none, none⟩ [] 1000 "navigation.position"
      [("latitude", .null), ("longitude", .num 12.3)] (.num 1) (some "gps.0")).2.1
    (by decide) (Or.inl rfl)

/-! ## Claim C5 — unparseable string timestamps

The spec says an unparseable string timestamp falls back to the current
wall-clock time.  In the source, the `Date.now()` fallback is only the
`else` branch for timestamps that are neither strings nor numbers; a
string that fails to parse yields `Math.floor(new Date(s).getTime()) =
NaN`, and the record is forwarded with a `NaN` time. -/

/-- C5 counterexample: the RawValue
`{path: "navigation.speedOverGround", value: 1, timestamp:
"not-a-date", $source: "gps.0"}` processed at wall-clock time 2000 with
a date parser that fails on every string is forwarded with time `NaN`
(`none`), which is not the wall-clock time `some ⌊2000⌋` the claim
requires. -/
theorem unparseable_timestamp_cex :
    processValueObj (fun _ => none) ⟨none, none, none⟩ [] 2000
        ⟨"navigation.speedOverGround", .num 1, .str "not-a-date", some "gps.0"⟩ =
      ([("navigation.speedOverGround", 2000)],
        some (.sensor,
          { path := "navigation.speedOverGround", time := none,
            value := .num 1, source := "gps.0" }))
    ∧ (none : Option ℤ) ≠ some ⌊(2000 : ℚ)⌋ := by
  constructor
  · have hst : shouldTransmit ⟨none, none, none⟩ [] "navigation.speedOverGround" .sensor 2000
        (.str "not-a-date") = true := by
      simp only [shouldTransmit, sampleRateFor, orDefault, lastOf, List.find?,
        decide_eq_true_eq]
      norm_num
    rw [processValueObj_valid (fun _ => none) ⟨none, none, none⟩ [] 2000
        ⟨"navigation.speedOverGround", .num 1, .str "not-a-date", some "gps.0"⟩ (by decide),
      processAfterValidity_forward (fun _ => none) ⟨none, none, none⟩ [] 2000
        ⟨"navigation.speedOverGround", .num 1, .str "not-a-date", some "gps.0"⟩ .sensor
        (by decide) (by decide) rfl hst]
    rfl
  · simp

/-- C5 amended: for a RawValue whose timestamp is a string that fails
to parse, normalization sets the record's time to `NaN` (`none`,
serialized as JSON `null`) — the record is still forwarded, not
rejected; the wall-clock fallback applies only to timestamps that are
neither strings nor numbers (e.g. objects or booleans). -/
theorem unparseable_timestamp_nan (f : String → Option ℤ) (opts : Options)
    (now : ℚ) (s : String) (l : List (String × JSValue)) (b : Bool)
    (st : ThrottleMap) (raw : RawValue) :
    (f s = none → normalizeTimestamp f (.str s) now = none)
    ∧ normalizeTimestamp f (.obj l) now = some ⌊now⌋
    ∧ normalizeTimestamp f (.bool b) now = some ⌊now⌋
    ∧ (raw.timestamp = .str s → f s = none →
      ∀ (st2 : ThrottleMap) (cat : Category) (m : Measurement),
        processAfterValidity f opts st now raw = (st2, some (cat, m)) → m.time = none) := by
  refine ⟨fun h => by simp [normalizeTimestamp, h], rfl, rfl, ?_⟩
  intro hts hf st2 cat m h
  simp only [processAfterValidity] at h
  split at h
  · exact absurd h.symm (by simp)
  · split at h
    · exact absurd h.symm (by simp)
    · split at h
      · exact absurd h.symm (by simp)
      · rw [Prod.mk.injEq, Option.some.injEq, Prod.mk.injEq] at h
        obtain ⟨-, -, h3⟩ := h
        rw [← h3]
        show normalizeTimestamp f raw.timestamp now = none
        rw [hts]
        simp [normalizeTimestamp, hf]

/-- Witness for C5 (amended): the concrete unparseable-string run has a
`NaN` time on its forwarded measurement. -/
theorem unparseable_timestamp_nan_witness :
    normalizeTimestamp (fun _ => none) (.str "bad") 2000 = none ∧
    ({ path := "navigation.speedOverGround", time := none, value := .num 1,
        source := "unknown" } : Measurement).time = none := by
  have hst : shouldTransmit ⟨none, none, none⟩ [] "navigation.speedOverGround" .sensor 2000
      (.str "bad") = true := by
    simp only [shouldTransmit, sampleRateFor, orDefault, lastOf, List.find?,
      decide_eq_true_eq]
    norm_num
  have h : processAfterValidity (fun _ => none) ⟨none, none, none⟩ [] 2000
      ⟨"navigation.speedOverGround", .num 1, .str "bad", none⟩ =
      ([("navigation.speedOverGround", 2000)],
        some (.sensor,
          { path := "navigation.speedOverGround", time := none, value := .num 1,
            source := "unknown" })) := by
    rw [processAfterValidity_forward (fun _ => none) ⟨none, none, none⟩ [] 2000
      ⟨"navigation.speedOverGround", .num 1, .str "bad", none⟩ .sensor (by decide)
      (by decide) rfl hst]
    rfl
  exact ⟨(unparseable_timestamp_nan (fun _ => none) ⟨none, none, none⟩ 2000 "bad" [] true []
      ⟨"navigation.speedOverGround", .num 1, .str "bad", none⟩).1 rfl,
    (unparseable_timestamp_nan (fun _ => none) ⟨none, none, none⟩ 2000 "bad" [] true []
      ⟨"navigation.speedOverGround", .num 1, .str "bad", none⟩).2.2.2 rfl rfl
      [("navigation.speedOverGround", 2000)] .sensor _ h⟩

/-! ## Claim C8 — serialization formats

`writeToSocket` always writes the JSON line (format (a)); the
pipe-delimited encoder `serializeData` (format (b)) exists in the
source but its call is commented out, and the plugin's configuration
schema offers only the three sample rates — nothing selects format (b). -/

/-- C8 counterexample: for a concrete measurement on which the two
formats produce different lines, no configuration options make the
socket write produce the pipe-delimited `serializeData` line — the
claim that format (b) is "selectable by configuration" is false. -/
theorem formatB_not_selectable :
    ¬ formatBSelectable (fun _ => none) (some ⟨false, true⟩)
      (measurementToJS { path := "a", time := some 5, value := .str "x|y", source := "s" })
      7 := by
  rintro ⟨opts, line, h1, h2⟩
  have e0 : (⌊(7 : ℚ)⌋ : ℤ) = 7 := by norm_num
  have e1 : serializeData (fun _ => none)
      (measurementToJS { path := "a", time := some 5, value := .str "x|y", source := "s" })
      7 = some (tsRender (some ⌊(7 : ℚ)⌋) ++ "|" ++ "a" ++ "|" ++ "s" ++ "|" ++ "x\\|y"
        ++ "\n") := rfl
  rw [e0] at e1
  have e2 : serializeData (fun _ => none)
      (measurementToJS { path := "a", time := some 5, value := .str "x|y", source := "s" })
      7 = some "7|a|s|x\\|y\n" := by
    rw [e1]
    rfl
  rw [e2] at h1
  have hw : writeToSocket opts (some ⟨false, true⟩)
      (measurementToJS { path := "a", time := some 5, value := .str "x|y", source := "s" })
      = some "\x7b\"path\":\"a\",\"time\":5,\"value\":\"x|y\",\"source\":\"s\"\x7d\n" := rfl
  rw [hw] at h2
  rw [← h2] at h1
  exact absurd (Option.some.inj h1) (by decide)

/-- C8 amended: the implementation serializes every delivered record in
format (a) — the single JSON object `{path, time, value, source}` plus
a newline — under every configuration; the pipe-delimited format (b)
encoder (`serializeData`, with `|` escaped as `\|`, e.g. in string
values) exists in the source but is never invoked, and no configuration
option selects it. -/
theorem writes_always_json (opts : Options) (data : JSValue) (c : Socket)
    (h1 : c.destroyed = false) (h2 : c.writable = true) :
    writeToSocket opts (some c) data = some (jsonStringify data ++ "\n")
    ∧ escapePipes "x|y" = "x\\|y" := by
  obtain ⟨d, w⟩ := c
  have hd : d = false := h1
  have hw : w = true := h2
  subst hd
  subst hw
  exact ⟨rfl, rfl⟩

/-- Witness for C8 (amended): a writable socket delivers the JSON line
under the default (empty) configuration. -/
theorem writes_always_json_witness :
    writeToSocket ⟨none, none, none⟩ (some ⟨false, true⟩) (.str "v")
      = some (jsonStringify (.str "v") ++ "\n") :=
  (writes_always_json ⟨none, none, none⟩ (.str "v") ⟨false, true⟩ rfl rfl).1
